import Mathlib

/-!
Verification development for the plaid-sync reconciliation core.

Shallow embedding of `src/plaid-sync.py` (the `PlaidSynchronizer` class and
its batch driver) and `src/plaidapi.py` (the two page-draining loops,
`PlaidAPI.get_transactions` and `PlaidAPI.sync_transactions`).

The remote provider is modelled as a record of pre-arranged call outcomes
(`Provider`): each outcome is `Except PlaidError _`, mirroring the fact that
every wrapped provider call in `plaidapi.py` either returns a value or raises
one of the three `PlaidError` subclasses.  The persistent store
(`transactionsdb.TransactionsDB`) is not part of `src/`; it is modelled from
the spec (section 6) as a pure state record with the operations the spec
lists.  Python dictionaries are modelled as insertion-ordered association
lists with last-write-wins value semantics (`dictInsert` / `dictUpdate`).
-/

/-- Embedding of `plaidapi.Transaction` (src/plaidapi.py lines 52-71).
The `date` is abstracted to a day number; fields not read by the
reconciliation core (`raw_data`, `personal_finance_category`) are omitted. -/
structure Transaction where
  transaction_id : String
  account_id : String
  date : Nat
  pending : Bool
  merchant_name : String
  amount : Int
  currency_code : String
  deriving DecidableEq, Repr

/-- Embedding of `plaidapi.AccountInfo` (src/plaidapi.py lines 38-49),
timestamps abstracted to numbers. -/
structure AccountInfo where
  item_id : String
  institution_id : String
  ts_last_failed_update : Nat
  ts_last_successful_update : Nat
  deriving DecidableEq, Repr

/-- Embedding of `plaidapi.AccountBalance` (src/plaidapi.py lines 24-35),
reduced to the fields the core forwards to the store. -/
structure AccountBalance where
  account_id : String
  balance_current : Int
  balance_available : Int
  currency_code : String
  deriving DecidableEq, Repr

/-- Embedding of the `plaidapi.PlaidError` hierarchy (src/plaidapi.py lines
84-122): the three classified provider errors, each carrying a message. -/
inductive PlaidError where
  | noApplicableAccounts : String → PlaidError
  | accountUpdateNeeded : String → PlaidError
  | unknownError : String → PlaidError
  deriving DecidableEq, Repr

/-- Embedding of `SyncCounts` (src/plaid-sync.py lines 100-113). -/
structure SyncCounts where
  new : Nat
  new_pending : Nat
  archived : Nat
  archived_pending : Nat
  total_fetched : Nat
  accounts : Nat
  deriving DecidableEq, Repr

/-- Association-list lookup; model of Python `dict.get` /  `dict[k]`. -/
def assocLookup {α : Type} (m : List (String × α)) (k : String) : Option α :=
  (m.find? (fun p => p.1 == k)).map Prod.snd

/-- Replace the value at key `k` wherever it occurs, without appending;
helper for `dictInsert`. -/
def dictSet {α : Type} : List (String × α) → String → α → List (String × α)
  | [], _, _ => []
  | (k0, v0) :: rest, k, v =>
    if k0 = k then (k, v) :: dictSet rest k v else (k0, v0) :: dictSet rest k v

/-- Model of Python `dict[k] = v`: overwrite the value in place if the key is
present (keeping its position), otherwise append the new binding. -/
def dictInsert {α : Type} : List (String × α) → String → α → List (String × α)
  | [], k, v => [(k, v)]
  | (k0, v0) :: rest, k, v =>
    if k0 = k then (k, v) :: dictSet rest k v else (k0, v0) :: dictInsert rest k v

/-- Model of Python `dict.update(dict(kvs))`: fold `dictInsert` over the new
bindings in order, so a later binding for the same key wins. -/
def dictUpdate {α : Type} (m : List (String × α)) (kvs : List (String × α)) :
    List (String × α) :=
  kvs.foldl (fun acc p => dictInsert acc p.1 p.2) m

/-- Modelled from the spec: the persistent store collaborator
(`transactionsdb.TransactionsDB`, not under src/), with the state implied by
the operation list in spec section 6.  `transactions` is keyed by
transaction id (`save_transaction` is an upsert by id); `archived` records
the ids ever passed to the `archive_transactions` capability. -/
structure TransactionsDB where
  sync_cursors : List (String × String)
  transactions : List (String × Transaction)
  item_infos : List AccountInfo
  balances : List (String × AccountBalance)
  archived : List String
  deriving DecidableEq, Repr

/-- Modelled from the spec: `get_last_sync_cursor(item_id) -> cursor | null`. -/
def TransactionsDB.get_last_sync_cursor (db : TransactionsDB) (item_id : String) :
    Option String :=
  assocLookup db.sync_cursors item_id

/-- Modelled from the spec: `save_sync_cursor(item_id, cursor)`. -/
def TransactionsDB.save_sync_cursor (db : TransactionsDB) (item_id cursor : String) :
    TransactionsDB :=
  { db with sync_cursors := dictInsert db.sync_cursors item_id cursor }

/-- Modelled from the spec: `save_transaction(t)` (upsert by id). -/
def TransactionsDB.save_transaction (db : TransactionsDB) (t : Transaction) :
    TransactionsDB :=
  { db with transactions := dictInsert db.transactions t.transaction_id t }

/-- Modelled from the spec: `save_item_info(info)`. -/
def TransactionsDB.save_item_info (db : TransactionsDB) (info : AccountInfo) :
    TransactionsDB :=
  { db with item_infos := db.item_infos ++ [info] }

/-- Modelled from the spec: `save_balance(item_id, balance)` (snapshot insert). -/
def TransactionsDB.save_balance (db : TransactionsDB) (item_id : String)
    (b : AccountBalance) : TransactionsDB :=
  { db with balances := db.balances ++ [(item_id, b)] }

/-- Modelled from the spec: `get_transaction_ids(start_date, end_date,
account_ids) -> set of ids` — the ids stored for those accounts inside the
inclusive window. -/
def TransactionsDB.get_transaction_ids (db : TransactionsDB) (sd ed : Nat)
    (account_ids : List String) : List String :=
  (db.transactions.filter (fun pr =>
    account_ids.contains pr.2.account_id
      && decide (sd ≤ pr.2.date) && decide (pr.2.date ≤ ed))).map Prod.fst

/-- Modelled from the spec: `fetch_transactions_by_id(ids) -> [Transaction]`. -/
def TransactionsDB.fetch_transactions_by_id (db : TransactionsDB)
    (ids : List String) : List Transaction :=
  ids.filterMap (fun tid => assocLookup db.transactions tid)

/-- Modelled from the spec: the `archive_transactions(ids)` capability,
present on the store but never invoked by the core (spec sections 6 and 9). -/
def TransactionsDB.archive_transactions (db : TransactionsDB) (ids : List String) :
    TransactionsDB :=
  { db with archived := db.archived ++ ids }

/-- One page of the `/transactions/sync` response consumed by
`PlaidAPI.sync_transactions` (src/plaidapi.py lines 303-317): added and
modified transactions, removed ids, the next cursor and the has-more flag. -/
structure SyncPage where
  added : List Transaction
  modified : List Transaction
  removed : List String
  next_cursor : String
  has_more : Bool
  deriving DecidableEq, Repr

/-- The dictionary returned by `PlaidAPI.sync_transactions`
(src/plaidapi.py lines 324-330). -/
structure SyncResult where
  added : List Transaction
  modified : List Transaction
  removed : List String
  cursor : String
  has_next : Bool
  deriving DecidableEq, Repr

/-- The remote provider as seen by one account's sync: the pre-arranged
outcome of each wrapped call in `plaidapi.PlaidAPI`.  `sync_pages` is the
sequence of page responses the `/transactions/sync` loop will receive in
order (an `Except.error` entry is the page call raising).
`window_transactions` is the outcome of the date-range
`PlaidAPI.get_transactions` call as a whole; its internal page loop is
embedded separately as `get_transactions` below. -/
structure Provider where
  item_info : Except PlaidError AccountInfo
  balances : Except PlaidError (List AccountBalance)
  sync_pages : List (Except PlaidError SyncPage)
  window_transactions : Except PlaidError (List Transaction)

/-- The accumulation loop of `PlaidAPI.sync_transactions`
(src/plaidapi.py lines 289-323): drain pages while `has_more`, concatenating
`added`/`modified`/`removed` and tracking the latest `next_cursor`.  A page
that raises aborts the whole call with that error; running out of arranged
pages while `has_more` still holds is `none` (the real loop would block on a
further call). -/
def syncTransactionsLoop : List (Except PlaidError SyncPage) →
    List Transaction → List Transaction → List String →
    Option (Except PlaidError SyncResult)
  | [], _, _, _ => none
  | Except.error e :: _, _, _, _ => some (Except.error e)
  | Except.ok page :: rest, all_added, all_modified, all_removed =>
    let all_added2 := all_added ++ page.added
    let all_modified2 := all_modified ++ page.modified
    let all_removed2 := all_removed ++ page.removed
    if page.has_more then
      syncTransactionsLoop rest all_added2 all_modified2 all_removed2
    else
      some (Except.ok
        { added := all_added2, modified := all_modified2,
          removed := all_removed2, cursor := page.next_cursor,
          has_next := false })

/-- Embedding of `PlaidAPI.sync_transactions` (src/plaidapi.py lines
269-330).  The input cursor only parameterizes which request is sent; the
arranged `pages` already are the responses, so the cursor argument does not
influence the accumulation. -/
def sync_transactions (_cursor : Option String)
    (pages : List (Except PlaidError SyncPage)) :
    Option (Except PlaidError SyncResult) :=
  syncTransactionsLoop pages [] [] []

/-- The page loop of `PlaidAPI.get_transactions` (src/plaidapi.py lines
228-267): `page offset` returns the transactions batch at that offset
together with the reported `total_transactions`.  Stops when a batch is
shorter than `count` or the accumulated length reaches the total; otherwise
advances `offset` by `count`.  Returns the accumulated list and the number
of page requests issued; `fuel` bounds the iteration (the source loop is
`while True`), with `none` meaning the fuel ran out. -/
def getTransactionsLoop (page : Nat → List Transaction × Nat) (count : Nat) :
    Nat → Nat → List Transaction → Nat → Option (List Transaction × Nat)
  | 0, _, _, _ => none
  | fuel + 1, offset, ret, reqs =>
    let batch := (page offset).1
    let total := (page offset).2
    let ret2 := ret ++ batch
    if batch.length < count ∨ total ≤ ret2.length then
      some (ret2, reqs + 1)
    else
      getTransactionsLoop page count fuel (offset + count) ret2 (reqs + 1)

/-- Embedding of `PlaidAPI.get_transactions` (src/plaidapi.py lines
217-267), starting from offset 0 with an empty accumulator.  In the source
`count` is fixed to 500 (the Plaid maximum); it is a parameter here so the
page-size claims can be stated for any page size. -/
def get_transactions (page : Nat → List Transaction × Nat) (count fuel : Nat) :
    Option (List Transaction × Nat) :=
  getTransactionsLoop page count fuel 0 [] 0

/-- A simulated provider serving correct pages out of the fixed listing
`all`: the page at `offset` is the next `P` items and the reported total is
the length of `all` (the premise of the pagination-termination property in
spec section 8). -/
def pagesOf (all : List Transaction) (P : Nat) (offset : Nat) :
    List Transaction × Nat :=
  ((all.drop offset).take P, all.length)

/-- Embedding of the `PlaidSynchronizer` object state (src/plaid-sync.py
lines 116-131) minus the collaborator references (`db`, `plaid`), which are
passed to the sync functions explicitly. -/
structure PlaidSynchronizer where
  transactions : List (String × Transaction)
  account_name : String
  access_token : String
  plaid_error : Option PlaidError
  item_info : Option AccountInfo
  counts : SyncCounts
  deriving DecidableEq, Repr

/-- `PlaidSynchronizer.__init__` (src/plaid-sync.py lines 117-131). -/
def PlaidSynchronizer.init (account_name access_token : String) :
    PlaidSynchronizer :=
  { transactions := [], account_name := account_name,
    access_token := access_token, plaid_error := none, item_info := none,
    counts := ⟨0, 0, 0, 0, 0, 0⟩ }

/-- The keying step of `add_transactions`: `(t.transaction_id, t)` for each
transaction (src/plaid-sync.py line 135). -/
def keyBy (ts : List Transaction) : List (String × Transaction) :=
  ts.map (fun t => (t.transaction_id, t))

/-- `PlaidSynchronizer.add_transactions` (src/plaid-sync.py lines 133-136):
merge the keyed transactions into the working dict, later bindings winning. -/
def PlaidSynchronizer.add_transactions (s : PlaidSynchronizer)
    (ts : List Transaction) : PlaidSynchronizer :=
  { s with transactions := dictUpdate s.transactions (keyBy ts) }

/-- `PlaidSynchronizer.count_pending` (src/plaid-sync.py lines 138-145):
how many of the given ids are in the working dict with `pending` true. -/
def PlaidSynchronizer.count_pending (s : PlaidSynchronizer)
    (tids : List String) : Nat :=
  (tids.filter (fun tid =>
    match assocLookup s.transactions tid with
    | some t => t.pending
    | none => false)).length

/-- Python `set.difference` as used at src/plaid-sync.py lines 309-310:
the elements of `a` that are not in `b`. -/
def set_difference (a b : List String) : List String :=
  a.filter (fun x => !b.contains x)

/-- The distinct account ids of the working dict's values
(src/plaid-sync.py line 304). -/
def window_account_ids (m : List (String × Transaction)) : List String :=
  (m.map (fun pr => pr.2.account_id)).dedup

/-- The post-loop body of `PlaidSynchronizer.sync_with_cursor`
(src/plaid-sync.py lines 187-258), reached only when every provider call has
succeeded: merge added then modified into the working dict, build the
counts, then persist item info, balances, added and modified transactions,
and finally the new cursor.  The archive call for removed ids is commented
out in the source (lines 224-228) and is therefore absent here. -/
def cursorFinish (s0 : PlaidSynchronizer) (db : TransactionsDB)
    (info : AccountInfo) (balances : Option (List AccountBalance))
    (result : SyncResult) : PlaidSynchronizer × TransactionsDB :=
  let s1 := s0.add_transactions result.added
  let s2 := s1.add_transactions result.modified
  let account_ids := ((result.added ++ result.modified).map
    (fun t => t.account_id)).dedup
  let counts : SyncCounts :=
    { new := result.added.length,
      new_pending := s2.count_pending
        (result.added.map (fun t => t.transaction_id)),
      archived := result.removed.length,
      archived_pending := 0,
      total_fetched := result.added.length + result.modified.length,
      accounts := account_ids.length }
  let s3 := { s2 with counts := counts }
  let db1 := db.save_item_info info
  let db2 := match balances with
    | some bs => bs.foldl
        (fun (d : TransactionsDB) b => d.save_balance info.item_id b) db1
    | none => db1
  let db3 := result.added.foldl
    (fun (d : TransactionsDB) t => d.save_transaction t) db2
  let db4 := result.modified.foldl
    (fun (d : TransactionsDB) t => d.save_transaction t) db3
  let db5 := db4.save_sync_cursor info.item_id result.cursor
  (s3, db5)

/-- `PlaidSynchronizer.sync_with_cursor` (src/plaid-sync.py lines 147-261):
fetch item info, optionally balances, drain the cursor change loop, then run
`cursorFinish`.  Any `PlaidError` is caught and recorded on the
synchronizer, leaving the store untouched; `none` means the arranged page
list ran out mid-drain (the real loop would still be waiting on the
provider). -/
def PlaidSynchronizer.sync_with_cursor (p : Provider) (fetch_balances : Bool)
    (s : PlaidSynchronizer) (db : TransactionsDB) :
    Option (PlaidSynchronizer × TransactionsDB) :=
  match p.item_info with
  | Except.error e => some ({ s with plaid_error := some e }, db)
  | Except.ok info =>
    match (if fetch_balances then Except.map some p.balances
           else Except.ok none) with
    | Except.error e =>
      some ({ s with item_info := some info, plaid_error := some e }, db)
    | Except.ok balances =>
      match sync_transactions (db.get_last_sync_cursor info.item_id)
          p.sync_pages with
      | none => none
      | some (Except.error e) =>
        some ({ s with item_info := some info, plaid_error := some e }, db)
      | some (Except.ok result) =>
        some (cursorFinish { s with item_info := some info } db info
          balances result)

/-- The post-fetch body of the window-mode `PlaidSynchronizer.sync`
(src/plaid-sync.py lines 291-355), reached only when every provider call has
succeeded: merge the fetched window into the working dict, diff the id sets
against the store, pull the to-archive records from the store for their
pending flags, build the counts, then persist item info, balances and the
new transactions.  The archive call is commented out in the source (lines
336-340) and is therefore absent here. -/
def windowFinish (s0 : PlaidSynchronizer) (db : TransactionsDB)
    (info : AccountInfo) (balances : Option (List AccountBalance))
    (ts : List Transaction) (sd ed : Nat) :
    PlaidSynchronizer × TransactionsDB :=
  let s1 := s0.add_transactions ts
  let account_ids := window_account_ids s1.transactions
  let tids_existing := (db.get_transaction_ids sd ed account_ids).dedup
  let tids_fetched := (s1.transactions.map Prod.fst).dedup
  let tids_new := set_difference tids_fetched tids_existing
  let tids_to_archive := set_difference tids_existing tids_fetched
  let s2 := s1.add_transactions (db.fetch_transactions_by_id tids_to_archive)
  let counts : SyncCounts :=
    { new := tids_new.length,
      new_pending := s2.count_pending tids_new,
      archived := tids_to_archive.length,
      archived_pending := s2.count_pending tids_to_archive,
      total_fetched := tids_fetched.length,
      accounts := account_ids.length }
  let s3 := { s2 with counts := counts }
  let db1 := db.save_item_info info
  let db2 := match balances with
    | some bs => bs.foldl
        (fun (d : TransactionsDB) b => d.save_balance info.item_id b) db1
    | none => db1
  let db3 := tids_new.foldl (fun (d : TransactionsDB) tid =>
    match assocLookup s2.transactions tid with
    | some t => d.save_transaction t
    | none => d) db2
  (s3, db3)

/-- The window-mode branch of `PlaidSynchronizer.sync`
(src/plaid-sync.py lines 274-358): fetch item info, optionally balances,
fetch the window of transactions, then run `windowFinish`.  Any
`PlaidError` is caught and recorded, leaving the store untouched. -/
def PlaidSynchronizer.sync_window (p : Provider) (sd ed : Nat)
    (fetch_balances : Bool) (s : PlaidSynchronizer) (db : TransactionsDB) :
    PlaidSynchronizer × TransactionsDB :=
  match p.item_info with
  | Except.error e => ({ s with plaid_error := some e }, db)
  | Except.ok info =>
    match (if fetch_balances then Except.map some p.balances
           else Except.ok none) with
    | Except.error e =>
      ({ s with item_info := some info, plaid_error := some e }, db)
    | Except.ok balances =>
      match p.window_transactions with
      | Except.error e =>
        ({ s with item_info := some info, plaid_error := some e }, db)
      | Except.ok ts =>
        windowFinish { s with item_info := some info } db info balances ts
          sd ed

/-- `PlaidSynchronizer.sync` (src/plaid-sync.py lines 263-272): dispatch on
`use_cursor_sync` between the cursor-based and the window-based strategy. -/
def PlaidSynchronizer.sync (p : Provider) (sd ed : Nat)
    (fetch_balances use_cursor_sync : Bool) (s : PlaidSynchronizer)
    (db : TransactionsDB) : Option (PlaidSynchronizer × TransactionsDB) :=
  if use_cursor_sync then PlaidSynchronizer.sync_with_cursor p fetch_balances s db
  else some (PlaidSynchronizer.sync_window p sd ed fetch_balances s db)

/-- One configured account of the batch in `main`
(src/plaid-sync.py lines 519-554): its name, access token and the remote
outcomes its sync will see. -/
structure AccountInput where
  name : String
  access_token : String
  provider : Provider

/-- `process_account` inside `main` (src/plaid-sync.py lines 521-541): build
a fresh synchronizer for the account and run the selected strategy. -/
def process_account (use_cursor_sync : Bool) (sd ed : Nat)
    (fetch_balances : Bool) (db : TransactionsDB) (a : AccountInput) :
    Option (PlaidSynchronizer × TransactionsDB) :=
  PlaidSynchronizer.sync a.provider sd ed fetch_balances use_cursor_sync
    (PlaidSynchronizer.init a.name a.access_token) db

/-- The account loop of `main` (src/plaid-sync.py lines 543-554): process
each enabled account in order, collecting each account's synchronizer
(carrying its counts and any recorded error) into the results. -/
def run_batch (use_cursor_sync : Bool) (sd ed : Nat) (fetch_balances : Bool) :
    List AccountInput → TransactionsDB →
    Option (List (String × PlaidSynchronizer) × TransactionsDB)
  | [], db => some ([], db)
  | a :: rest, db =>
    match process_account use_cursor_sync sd ed fetch_balances db a with
    | none => none
    | some (s, db1) =>
      match run_batch use_cursor_sync sd ed fetch_balances rest db1 with
      | none => none
      | some (results, db2) => some ((a.name, s) :: results, db2)

/-! Concrete fixtures used by witnesses and counterexamples. -/

/-- A sample item info. -/
def wInfo : AccountInfo := ⟨"item1", "inst1", 0, 0⟩

/-- A sample classified provider error. -/
def wErr : PlaidError := PlaidError.accountUpdateNeeded "ITEM_LOGIN_REQUIRED"

/-- Sample transactions. -/
def wt1 : Transaction := ⟨"T1", "A", 1, true, "m", 5, "USD"⟩

/-- Second sample transaction. -/
def wt2 : Transaction := ⟨"T2", "A", 2, false, "m", 6, "USD"⟩

/-- Third sample transaction. -/
def wt3 : Transaction := ⟨"T3", "A", 3, false, "m", 7, "USD"⟩

/-- An empty store. -/
def dbEmpty : TransactionsDB := ⟨[], [], [], [], []⟩

/-- Fixture for cursor atomicity: first page of a three-page drain. -/
def c1page1 : SyncPage := ⟨[wt1], [], [], "c1", true⟩

/-- Fixture for cursor atomicity: third page, never reached. -/
def c1page3 : SyncPage := ⟨[], [], [], "c3", false⟩

/-- Store holding the cursor committed before the failing run. -/
def c1db : TransactionsDB := ⟨[("item1", "c0")], [], [], [], []⟩

/-- Provider whose change drain fails on page 2 of 3. -/
def c1p : Provider := ⟨.ok wInfo, .ok [], [.ok c1page1, .error wErr, .ok c1page3], .ok []⟩

/-- The synchronizer state after the failing cursor run on `c1p`. -/
def c1s : PlaidSynchronizer :=
  ⟨[], "acct", "tok", some wErr, some wInfo, ⟨0, 0, 0, 0, 0, 0⟩⟩

/-- Page-order fixture: an earlier page reports id `X` as modified. -/
def tA1 : Transaction := ⟨"X", "A", 1, false, "m", 1, "USD"⟩

/-- Page-order fixture: a later page reports id `X` as added, with a
different amount. -/
def tA2 : Transaction := ⟨"X", "A", 1, false, "m", 2, "USD"⟩

/-- Page 1 of the duplicate-id drain: `X` arrives as modified. -/
def c4page1 : SyncPage := ⟨[], [tA1], [], "c1", true⟩

/-- Page 2 of the duplicate-id drain: `X` arrives again as added. -/
def c4page2 : SyncPage := ⟨[tA2], [], [], "c2", false⟩

/-- Provider reporting id `X` on two pages. -/
def c4p : Provider := ⟨.ok wInfo, .ok [], [.ok c4page1, .ok c4page2], .ok []⟩

/-- Stored version of transaction `B` before a window re-fetch. -/
def oldB : Transaction := ⟨"B", "A", 5, true, "m", 10, "USD"⟩

/-- Re-fetched version of `B`: same id, settled and with a new amount. -/
def newB : Transaction := ⟨"B", "A", 5, false, "m", 20, "USD"⟩

/-- Store already holding `B` inside the window. -/
def c5db : TransactionsDB := ⟨[], [("B", oldB)], [], [], []⟩

/-- Provider whose window fetch returns the changed `B`. -/
def c5p : Provider := ⟨.ok wInfo, .ok [], [], .ok [newB]⟩

/-- The synchronizer state after the window run on `c5p` over `c5db`. -/
def c5s : PlaidSynchronizer :=
  ⟨[("B", newB)], "a", "t", none, some wInfo, ⟨0, 0, 0, 0, 1, 1⟩⟩

/-- The store after the window run on `c5p` over `c5db`: only the item info
was appended. -/
def c5db2 : TransactionsDB := ⟨[], [("B", oldB)], [wInfo], [], []⟩

/-- First page of a clean two-page cursor drain. -/
def c7page1 : SyncPage := ⟨[wt1], [], [], "c1", true⟩

/-- Second page of the clean drain: one removed id, no more pages. -/
def c7page2 : SyncPage := ⟨[], [], ["R1"], "c2", false⟩

/-- Provider for the clean two-page cursor drain. -/
def c7p : Provider := ⟨.ok wInfo, .ok [], [.ok c7page1, .ok c7page2], .ok []⟩

/-- The synchronizer state after the clean cursor run on `c7p`. -/
def c7s : PlaidSynchronizer :=
  ⟨[("T1", wt1)], "a", "t", none, some wInfo, ⟨1, 1, 1, 0, 1, 1⟩⟩

/-- The store after the clean cursor run on `c7p`: cursor committed at
`c2`, transaction and item info saved. -/
def c7db2 : TransactionsDB :=
  ⟨[("item1", "c2")], [("T1", wt1)], [wInfo], [], []⟩

/-- A one-account batch whose provider fails mid-drain. -/
def c3accounts : List AccountInput := [⟨"acct", "tok", c1p⟩]

/-- Well-formedness of a working dict: every binding's value carries the
binding's key as its transaction id.  Holds for every dict built by
`add_transactions`, since `keyBy` keys each transaction by its own id. -/
def mapWF (m : List (String × Transaction)) : Prop :=
  ∀ pr ∈ m, (Prod.snd pr).transaction_id = pr.1

/-! Lemmas about the dictionary model. -/

/-- Lookup in the empty dict. -/
lemma assocLookup_nil {α : Type} (k : String) :
    assocLookup ([] : List (String × α)) k = none := rfl

/-- Lookup steps over a cons cell. -/
lemma assocLookup_cons {α : Type} (k0 : String) (v0 : α)
    (rest : List (String × α)) (k : String) :
    assocLookup ((k0, v0) :: rest) k =
      if k0 = k then some v0 else assocLookup rest k := by
  by_cases h : k0 = k
  · simp [assocLookup, List.find?_cons_of_pos, h]
  · simp only [assocLookup, if_neg h]
    rw [List.find?_cons_of_neg]
    simp [h]

/-- Replacing the value at a key leaves all other keys' lookups alone. -/
lemma assocLookup_dictSet_ne {α : Type} (m : List (String × α)) (k : String)
    (v : α) (k' : String) (h : k' ≠ k) :
    assocLookup (dictSet m k v) k' = assocLookup m k' := by
  induction m with
  | nil => rfl
  | cons p rest ih =>
    obtain ⟨k0, v0⟩ := p
    by_cases hk : k0 = k
    · subst hk
      simp [dictSet, assocLookup_cons, Ne.symm h, ih]
    · simp [dictSet, hk, assocLookup_cons, ih]

/-- Characterization of lookup after a dict insert: the inserted key now
maps to the new value, all other keys are untouched. -/
lemma assocLookup_dictInsert {α : Type} (m : List (String × α)) (k : String)
    (v : α) (k' : String) :
    assocLookup (dictInsert m k v) k' =
      if k' = k then some v else assocLookup m k' := by
  induction m with
  | nil =>
    by_cases h : k' = k
    · simp [dictInsert, assocLookup_cons, h]
    · simp [dictInsert, assocLookup_cons, Ne.symm h, h, assocLookup_nil]
  | cons p rest ih =>
    obtain ⟨k0, v0⟩ := p
    by_cases hk : k0 = k
    · subst hk
      by_cases h : k' = k0
      · subst h
        simp [dictInsert, assocLookup_cons]
      · simp [dictInsert, assocLookup_cons, Ne.symm h, h,
          assocLookup_dictSet_ne rest k0 v k' h]
    · by_cases h : k' = k0
      · subst h
        simp [dictInsert, hk, assocLookup_cons, Ne.symm hk]
      · simp [dictInsert, hk, assocLookup_cons, Ne.symm h, ih]

/-- Lookup in a dict extended on the right by one binding. -/
lemma assocLookup_snoc {α : Type} (l : List (String × α)) (k0 : String)
    (v0 : α) (k : String) :
    assocLookup (l ++ [(k0, v0)]) k =
      match assocLookup l k with
      | some v => some v
      | none => if k0 = k then some v0 else none := by
  induction l with
  | nil => simp [assocLookup_cons, assocLookup_nil]
  | cons p rest ih =>
    obtain ⟨k1, v1⟩ := p
    by_cases h : k1 = k
    · simp [assocLookup_cons, h]
    · simp [assocLookup_cons, h, ih]

/-- Lookup after a bulk `dictUpdate`: the last binding for the key in the
update list wins, and absent keys fall back to the original dict. -/
lemma assocLookup_dictUpdate {α : Type} (kvs : List (String × α))
    (m : List (String × α)) (k : String) :
    assocLookup (dictUpdate m kvs) k =
      match assocLookup kvs.reverse k with
      | some v => some v
      | none => assocLookup m k := by
  induction kvs generalizing m with
  | nil => rfl
  | cons p rest ih =>
    obtain ⟨k0, v0⟩ := p
    have hstep : dictUpdate m ((k0, v0) :: rest) =
        dictUpdate (dictInsert m k0 v0) rest := rfl
    rw [hstep, ih, List.reverse_cons, assocLookup_snoc, assocLookup_dictInsert]
    cases hrev : assocLookup rest.reverse k with
    | some v => rfl
    | none =>
      by_cases h : k = k0
      · subst h
        simp
      · simp [h, Ne.symm h]

/-! Well-formedness of the working dict. -/

/-- `dictSet` preserves well-formedness when the new value carries its key. -/
lemma mapWF_dictSet (m : List (String × Transaction)) (k : String)
    (v : Transaction) (hm : mapWF m) (hv : v.transaction_id = k) :
    mapWF (dictSet m k v) := by
  induction m with
  | nil => exact hm
  | cons p rest ih =>
    obtain ⟨k0, v0⟩ := p
    have hrest : mapWF rest := fun q hq => hm q (List.mem_cons_of_mem _ hq)
    by_cases hk : k0 = k
    · subst hk
      intro q hq
      simp only [dictSet, if_pos rfl] at hq
      rcases List.mem_cons.mp hq with h | h
      · subst h; exact hv
      · exact ih hrest q h
    · intro q hq
      simp only [dictSet, if_neg hk] at hq
      rcases List.mem_cons.mp hq with h | h
      · subst h; exact hm _ (List.mem_cons_self _ _)
      · exact ih hrest q h

/-- `dictInsert` preserves well-formedness when the new value carries its
key. -/
lemma mapWF_dictInsert (m : List (String × Transaction)) (k : String)
    (v : Transaction) (hm : mapWF m) (hv : v.transaction_id = k) :
    mapWF (dictInsert m k v) := by
  induction m with
  | nil =>
    intro q hq
    simp only [dictInsert] at hq
    rcases List.mem_cons.mp hq with h | h
    · subst h; exact hv
    · exact absurd h (List.not_mem_nil _)
  | cons p rest ih =>
    obtain ⟨k0, v0⟩ := p
    have hrest : mapWF rest := fun q hq => hm q (List.mem_cons_of_mem _ hq)
    by_cases hk : k0 = k
    · subst hk
      intro q hq
      simp only [dictInsert, if_pos rfl] at hq
      rcases List.mem_cons.mp hq with h | h
      · subst h; exact hv
      · exact mapWF_dictSet rest k0 v hrest hv q h
    · intro q hq
      simp only [dictInsert, if_neg hk] at hq
      rcases List.mem_cons.mp hq with h | h
      · subst h; exact hm _ (List.mem_cons_self _ _)
      · exact ih hrest q h

/-- `dictUpdate` preserves well-formedness when each new binding carries its
key. -/
lemma mapWF_dictUpdate (kvs m : List (String × Transaction)) (hm : mapWF m)
    (hkvs : ∀ pr ∈ kvs, (Prod.snd pr).transaction_id = pr.1) :
    mapWF (dictUpdate m kvs) := by
  induction kvs generalizing m with
  | nil => exact hm
  | cons p rest ih =>
    have hstep : dictUpdate m (p :: rest) =
        dictUpdate (dictInsert m p.1 p.2) rest := rfl
    rw [hstep]
    exact ih (dictInsert m p.1 p.2)
      (mapWF_dictInsert m p.1 p.2 hm (hkvs p (List.mem_cons_self _ _)))
      (fun q hq => hkvs q (List.mem_cons_of_mem _ hq))

/-- `add_transactions` preserves well-formedness of the working dict. -/
lemma mapWF_add_transactions (s : PlaidSynchronizer) (ts : List Transaction)
    (h : mapWF s.transactions) : mapWF (s.add_transactions ts).transactions := by
  refine mapWF_dictUpdate _ _ h ?_
  intro pr hpr
  simp only [keyBy, List.mem_map] at hpr
  obtain ⟨t, _, rfl⟩ := hpr
  rfl

/-- A successful lookup in a well-formed dict returns a transaction whose id
is the looked-up key. -/
lemma assocLookup_wf (m : List (String × Transaction)) (k : String)
    (t : Transaction) (hm : mapWF m) (h : assocLookup m k = some t) :
    t.transaction_id = k := by
  simp only [assocLookup, Option.map_eq_some'] at h
  obtain ⟨pr, hfind, hsnd⟩ := h
  have hmem := List.mem_of_find?_eq_some hfind
  have hkey : (pr.1 == k) = true := by
    have h1 := List.find?_some hfind
    simpa using h1
  have := hm pr hmem
  subst hsnd
  rw [this]
  exact eq_of_beq hkey

/-! Preservation of untouched store fields. -/

/-- Saving transactions never touches the archived-id log. -/
lemma foldl_save_transaction_archived (l : List Transaction)
    (db : TransactionsDB) :
    (l.foldl (fun (d : TransactionsDB) t => d.save_transaction t) db).archived
      = db.archived := by
  induction l generalizing db with
  | nil => rfl
  | cons t rest ih => rw [List.foldl_cons, ih]; rfl

/-- Saving balances never touches the archived-id log. -/
lemma foldl_save_balance_archived (bs : List AccountBalance) (i : String)
    (db : TransactionsDB) :
    (bs.foldl (fun (d : TransactionsDB) b => d.save_balance i b) db).archived
      = db.archived := by
  induction bs generalizing db with
  | nil => rfl
  | cons b rest ih => rw [List.foldl_cons, ih]; rfl

/-- The window-mode save loop never touches the archived-id log. -/
lemma foldl_window_save_archived (tids : List String)
    (m : List (String × Transaction)) (db : TransactionsDB) :
    (tids.foldl (fun (d : TransactionsDB) tid =>
      match assocLookup m tid with
      | some t => d.save_transaction t
      | none => d) db).archived = db.archived := by
  induction tids generalizing db with
  | nil => rfl
  | cons tid rest ih =>
    rw [List.foldl_cons, ih]
    cases assocLookup m tid <;> rfl

/-- Saving balances never touches the stored transactions. -/
lemma foldl_save_balance_transactions (bs : List AccountBalance) (i : String)
    (db : TransactionsDB) :
    (bs.foldl (fun (d : TransactionsDB) b => d.save_balance i b) db).transactions
      = db.transactions := by
  induction bs generalizing db with
  | nil => rfl
  | cons b rest ih => rw [List.foldl_cons, ih]; rfl

/-- The window-mode save loop leaves every id outside the saved list
untouched in the store, provided the working dict is well-formed (each
saved transaction then lands at its own id, which is in the list). -/
lemma foldl_window_save_lookup (m : List (String × Transaction))
    (hm : mapWF m) (tids : List String) (tid : String) (htid : tid ∉ tids)
    (db : TransactionsDB) :
    assocLookup (tids.foldl (fun (d : TransactionsDB) tid0 =>
      match assocLookup m tid0 with
      | some t => d.save_transaction t
      | none => d) db).transactions tid = assocLookup db.transactions tid := by
  induction tids generalizing db with
  | nil => rfl
  | cons t0 rest ih =>
    have hne : tid ≠ t0 := fun h => htid (h ▸ List.mem_cons_self _ _)
    have htid' : tid ∉ rest := fun h => htid (List.mem_cons_of_mem _ h)
    rw [List.foldl_cons, ih htid']
    cases hl : assocLookup m t0 with
    | none => rfl
    | some t =>
      have hid : t.transaction_id = t0 := assocLookup_wf m t0 t hm hl
      simp [TransactionsDB.save_transaction, assocLookup_dictInsert, hid, hne]

/-! Claim theorems. -/

/-- Claim C1: for every cursor-mode sync of one account, the stored sync
cursor map is updated only after the entire multi-page change-replay loop has
completed without error; whenever the run records a provider error (raised
by any provider call, in particular a page call inside the loop), the cursor
table stored before the run began is unchanged after the run. -/
theorem cursor_atomicity_on_error (p : Provider) (fb : Bool) (n a : String)
    (db : TransactionsDB) (s' : PlaidSynchronizer) (db' : TransactionsDB)
    (e : PlaidError)
    (hrun : PlaidSynchronizer.sync_with_cursor p fb
      (PlaidSynchronizer.init n a) db = some (s', db'))
    (herr : s'.plaid_error = some e) :
    db'.sync_cursors = db.sync_cursors := by
  unfold PlaidSynchronizer.sync_with_cursor at hrun
  split at hrun
  · simp only [Option.some.injEq, Prod.mk.injEq] at hrun
    rw [← hrun.2]
  · split at hrun
    · simp only [Option.some.injEq, Prod.mk.injEq] at hrun
      rw [← hrun.2]
    · split at hrun
      · exact absurd hrun (by simp)
      · simp only [Option.some.injEq, Prod.mk.injEq] at hrun
        rw [← hrun.2]
      · simp only [Option.some.injEq] at hrun
        have hs := congrArg Prod.fst hrun
        simp only [cursorFinish] at hs
        rw [← hs] at herr
        simp [PlaidSynchronizer.add_transactions, PlaidSynchronizer.init]
          at herr

/-- Witness for C1: the concrete three-page drain of `c1p` fails on page 2;
the run records the error and the stored cursor table (holding `c0`) is
exactly what it was before. -/
theorem cursor_atomicity_on_error_witness :
    PlaidSynchronizer.sync_with_cursor c1p false
        (PlaidSynchronizer.init "acct" "tok") c1db = some (c1s, c1db) ∧
      c1s.plaid_error = some wErr ∧
      c1db.sync_cursors = c1db.sync_cursors :=
  ⟨rfl, rfl,
    cursor_atomicity_on_error c1p false "acct" "tok" c1db c1s c1db wErr rfl rfl⟩

/-- Claim C2: for every pair of id sets (fetched, existing) arising in a
window-mode sync, the reconciler computes `new = fetched − existing` and
`archived = existing − fetched` (this is `set_difference`, applied at
src/plaid-sync.py lines 309-310), and the two are disjoint: no id is both
new and to-archive. -/
theorem window_diff_sets (fetched existing : List String) (x : String) :
    (x ∈ set_difference fetched existing ↔ x ∈ fetched ∧ x ∉ existing) ∧
    (x ∈ set_difference existing fetched ↔ x ∈ existing ∧ x ∉ fetched) ∧
    ¬(x ∈ set_difference fetched existing ∧
      x ∈ set_difference existing fetched) := by
  have hmem : ∀ (a b : List String),
      x ∈ set_difference a b ↔ x ∈ a ∧ x ∉ b := by
    intro a b
    simp [set_difference, List.mem_filter]
  refine ⟨hmem fetched existing, hmem existing fetched, ?_⟩
  rintro ⟨h1, h2⟩
  exact ((hmem fetched existing).mp h1).2 ((hmem existing fetched).mp h2).1

/-- Witness for C2 at the spec's section 8 example: fetched `{B, C, D}`,
existing `{A, B, C}`; `D` is new and not to-archive. -/
theorem window_diff_sets_witness :
    ("D" ∈ set_difference ["B", "C", "D"] ["A", "B", "C"] ↔
      "D" ∈ ["B", "C", "D"] ∧ "D" ∉ ["A", "B", "C"]) ∧
    ¬("D" ∈ set_difference ["B", "C", "D"] ["A", "B", "C"] ∧
      "D" ∈ set_difference ["A", "B", "C"] ["B", "C", "D"]) :=
  ⟨(window_diff_sets ["B", "C", "D"] ["A", "B", "C"] "D").1,
    (window_diff_sets ["B", "C", "D"] ["A", "B", "C"] "D").2.2⟩

/-- A cursor-mode run that records a provider error performs no store write
at all: the store after the run is the store before it. -/
lemma cursor_error_leaves_db (p : Provider) (fb : Bool) (n a : String)
    (db : TransactionsDB) (s' : PlaidSynchronizer) (db' : TransactionsDB)
    (e : PlaidError)
    (hrun : PlaidSynchronizer.sync_with_cursor p fb
      (PlaidSynchronizer.init n a) db = some (s', db'))
    (herr : s'.plaid_error = some e) :
    db' = db := by
  unfold PlaidSynchronizer.sync_with_cursor at hrun
  split at hrun
  · simp only [Option.some.injEq, Prod.mk.injEq] at hrun
    exact hrun.2.symm
  · split at hrun
    · simp only [Option.some.injEq, Prod.mk.injEq] at hrun
      exact hrun.2.symm
    · split at hrun
      · exact absurd hrun (by simp)
      · simp only [Option.some.injEq, Prod.mk.injEq] at hrun
        exact hrun.2.symm
      · simp only [Option.some.injEq] at hrun
        have hs := congrArg Prod.fst hrun
        simp only [cursorFinish] at hs
        rw [← hs] at herr
        simp [PlaidSynchronizer.add_transactions, PlaidSynchronizer.init]
          at herr

/-- A window-mode run that records a provider error performs no store write
at all: the store after the run is the store before it. -/
lemma window_error_leaves_db (p : Provider) (sd ed : Nat) (fb : Bool)
    (n a : String) (db : TransactionsDB) (s' : PlaidSynchronizer)
    (db' : TransactionsDB) (e : PlaidError)
    (hrun : PlaidSynchronizer.sync_window p sd ed fb
      (PlaidSynchronizer.init n a) db = (s', db'))
    (herr : s'.plaid_error = some e) :
    db' = db := by
  unfold PlaidSynchronizer.sync_window at hrun
  split at hrun
  · simp only [Prod.mk.injEq] at hrun
    exact hrun.2.symm
  · split at hrun
    · simp only [Prod.mk.injEq] at hrun
      exact hrun.2.symm
    · split at hrun
      · simp only [Prod.mk.injEq] at hrun
        exact hrun.2.symm
      · have hs := congrArg Prod.fst hrun
        simp only [windowFinish] at hs
        rw [← hs] at herr
        simp [PlaidSynchronizer.add_transactions, PlaidSynchronizer.init]
          at herr

/-- Claim C3: in either mode, a provider error raised during an account's
sync is caught and recorded on that account's result rather than
propagating — the batch loop still produces one result per account — and a
run that records such an error has performed no store write at all. -/
theorem provider_error_isolated :
    (∀ (use_cursor_sync : Bool) (sd ed : Nat) (fb : Bool) (n a : String)
      (p : Provider) (db : TransactionsDB) (s' : PlaidSynchronizer)
      (db' : TransactionsDB) (e : PlaidError),
      PlaidSynchronizer.sync p sd ed fb use_cursor_sync
        (PlaidSynchronizer.init n a) db = some (s', db') →
      s'.plaid_error = some e → db' = db) ∧
    (∀ (use_cursor_sync : Bool) (sd ed : Nat) (fb : Bool)
      (accts : List AccountInput) (db : TransactionsDB)
      (results : List (String × PlaidSynchronizer)) (dbf : TransactionsDB),
      run_batch use_cursor_sync sd ed fb accts db = some (results, dbf) →
      results.map Prod.fst = accts.map AccountInput.name) := by
  constructor
  · intro uc sd ed fb n a p db s' db' e hrun herr
    by_cases hm : uc
    · rw [PlaidSynchronizer.sync, if_pos hm] at hrun
      exact cursor_error_leaves_db p fb n a db s' db' e hrun herr
    · rw [PlaidSynchronizer.sync, if_neg hm] at hrun
      simp only [Option.some.injEq] at hrun
      exact window_error_leaves_db p sd ed fb n a db s' db' e hrun herr
  · intro uc sd ed fb accts
    induction accts with
    | nil =>
      intro db results dbf hrun
      simp only [run_batch, Option.some.injEq, Prod.mk.injEq] at hrun
      rw [← hrun.1]
      rfl
    | cons acct rest ih =>
      intro db results dbf hrun
      unfold run_batch at hrun
      split at hrun
      · exact absurd hrun (by simp)
      · rename_i s db1 hproc
        split at hrun
        · exact absurd hrun (by simp)
        · rename_i results1 db2 hrest
          simp only [Option.some.injEq, Prod.mk.injEq] at hrun
          rw [← hrun.1, List.map_cons, List.map_cons]
          exact congrArg (List.cons acct.name) (ih db1 results1 db2 hrest)

/-- Witness for C3: the one-account batch over `c1p` (whose drain fails on
page 2) still yields a result for the account, with the error recorded and
the store untouched. -/
theorem provider_error_isolated_witness :
    (PlaidSynchronizer.sync c1p 0 0 false true
        (PlaidSynchronizer.init "acct" "tok") c1db = some (c1s, c1db) ∧
      c1db = c1db) ∧
    (run_batch true 0 0 false c3accounts c1db = some ([("acct", c1s)], c1db) ∧
      [("acct", c1s)].map Prod.fst = c3accounts.map AccountInput.name) :=
  ⟨⟨rfl, provider_error_isolated.1 true 0 0 false "acct" "tok" c1p c1db c1s
      c1db wErr rfl rfl⟩,
   ⟨rfl, provider_error_isolated.2 true 0 0 false c3accounts c1db
      [("acct", c1s)] c1db rfl⟩⟩

/-- Counterexample to claim C4 as stated: in the drain of `c4p`, id `X`
appears as modified on page 1 (version `tA1`) and as added on page 2
(version `tA2`).  The latest page on which `X` appeared is page 2, yet the
merged working map holds `tA1`: the code merges all added lists before all
modified lists (src/plaid-sync.py lines 192-193), so the merge order is not
pagination order across the two kinds. -/
theorem merge_latest_page_cex :
    (PlaidSynchronizer.sync_with_cursor c4p false
        (PlaidSynchronizer.init "a" "t") dbEmpty).map
      (fun r => assocLookup r.1.transactions "X") = some (some tA1) ∧
      tA1 ≠ tA2 :=
  ⟨rfl, by decide⟩

/-- Claim C4, amended: the merged working map resolves duplicate keys by
last-write-wins in merge order, which is all accumulated added transactions
(in pagination order) followed by all accumulated modified transactions (in
pagination order).  Hence an id duplicated within the added lists resolves
to the latest added version, an id duplicated within the modified lists to
the latest modified version, and an id appearing in both holds the modified
version regardless of the pages involved.  Formally: a lookup in the merged
map returns the last binding for that id in the modified list if any,
otherwise the last binding in the added list, otherwise the previous
contents of the working map. -/
theorem merge_last_write_wins (s : PlaidSynchronizer)
    (added modified : List Transaction) (tid : String) :
    assocLookup
        ((s.add_transactions added).add_transactions modified).transactions
        tid =
      match assocLookup (keyBy modified).reverse tid with
      | some t => some t
      | none =>
        match assocLookup (keyBy added).reverse tid with
        | some t => some t
        | none => assocLookup s.transactions tid := by
  show assocLookup
    (dictUpdate (dictUpdate s.transactions (keyBy added)) (keyBy modified))
    tid = _
  rw [assocLookup_dictUpdate, assocLookup_dictUpdate]
  cases assocLookup (keyBy modified).reverse tid with
  | some t => rfl
  | none => cases assocLookup (keyBy added).reverse tid <;> rfl

/-- Counterexample to claim C5 as stated: the window run on `c5p` re-fetches
transaction `B` (version `newB`, settled, new amount) while the store holds
`oldB` under the same id.  After the run the working map holds the
re-fetched version but the store still holds `oldB`: the window path saves
only ids in `fetched − existing` (src/plaid-sync.py lines 354-355), so the
re-fetched version is never persisted. -/
theorem window_refetch_not_persisted_cex :
    assocLookup (PlaidSynchronizer.sync_window c5p 0 10 false
        (PlaidSynchronizer.init "a" "t") c5db).2.transactions "B"
      = some oldB ∧
    assocLookup (PlaidSynchronizer.sync_window c5p 0 10 false
        (PlaidSynchronizer.init "a" "t") c5db).1.transactions "B"
      = some newB ∧
    oldB ≠ newB :=
  ⟨rfl, rfl, by decide⟩

/-- The window-mode persistence step leaves every id that the store already
reports for the window (for the account set computed from the fetch)
untouched: such an id is never in `fetched − existing`, and those are the
only ids the window path saves. -/
lemma windowFinish_existing_preserved (s0 : PlaidSynchronizer)
    (db : TransactionsDB) (info : AccountInfo)
    (balances : Option (List AccountBalance)) (ts : List Transaction)
    (sd ed : Nat) (tid : String) (hwf0 : mapWF s0.transactions)
    (hmem : tid ∈ db.get_transaction_ids sd ed
      (window_account_ids (s0.add_transactions ts).transactions)) :
    assocLookup (windowFinish s0 db info balances ts sd ed).2.transactions tid
      = assocLookup db.transactions tid := by
  have hwf2 : mapWF ((s0.add_transactions ts).add_transactions
      (db.fetch_transactions_by_id (set_difference
        ((db.get_transaction_ids sd ed
          (window_account_ids (s0.add_transactions ts).transactions)).dedup)
        (((s0.add_transactions ts).transactions.map Prod.fst).dedup)))).transactions :=
    mapWF_add_transactions _ _ (mapWF_add_transactions _ _ hwf0)
  have hnot : tid ∉ set_difference
      (((s0.add_transactions ts).transactions.map Prod.fst).dedup)
      ((db.get_transaction_ids sd ed
        (window_account_ids (s0.add_transactions ts).transactions)).dedup) := by
    intro h
    simp [set_difference, List.mem_filter] at h
    exact h.2 hmem
  unfold windowFinish
  dsimp only
  rw [foldl_window_save_lookup _ hwf2 _ _ hnot]
  cases balances with
  | none => rfl
  | some bs => rw [foldl_save_balance_transactions]; rfl

/-- Claim C5, amended: in window mode a transaction observed again with the
same transaction id is NOT persisted.  The run saves only the transactions
whose ids are in `fetched − existing`; for any id the store already reports
for the window (over the account set computed from the fetch), the stored
record after the run equals the stored record before it, even when the
re-fetched fields differ.  The re-fetched version lives only in the
in-memory working map; only the cursor path persists modified versions. -/
theorem window_refetch_not_persisted (p : Provider) (sd ed : Nat) (fb : Bool)
    (n a : String) (db : TransactionsDB) (ts : List Transaction) (tid : String)
    (hts : p.window_transactions = Except.ok ts)
    (hmem : tid ∈ db.get_transaction_ids sd ed
      (window_account_ids
        ((PlaidSynchronizer.init n a).add_transactions ts).transactions)) :
    assocLookup (PlaidSynchronizer.sync_window p sd ed fb
        (PlaidSynchronizer.init n a) db).2.transactions tid
      = assocLookup db.transactions tid := by
  cases hinfo : p.item_info with
  | error e =>
    have h : PlaidSynchronizer.sync_window p sd ed fb
        (PlaidSynchronizer.init n a) db
        = ({ PlaidSynchronizer.init n a with plaid_error := some e }, db) := by
      unfold PlaidSynchronizer.sync_window
      simp only [hinfo]
    rw [h]
  | ok info =>
    cases hb : (if fb then Except.map some p.balances else Except.ok none) with
    | error e =>
      have h : PlaidSynchronizer.sync_window p sd ed fb
          (PlaidSynchronizer.init n a) db
          = ({ PlaidSynchronizer.init n a with
                item_info := some info
                plaid_error := some e }, db) := by
        unfold PlaidSynchronizer.sync_window
        simp only [hinfo, hb]
      rw [h]
    | ok balances =>
      have h : PlaidSynchronizer.sync_window p sd ed fb
          (PlaidSynchronizer.init n a) db
          = windowFinish { PlaidSynchronizer.init n a with
              item_info := some info } db info balances ts sd ed := by
        unfold PlaidSynchronizer.sync_window
        simp only [hinfo, hb, hts]
      rw [h]
      exact windowFinish_existing_preserved _ db _ _ ts sd ed tid
        (fun pr hpr => absurd hpr (List.not_mem_nil _)) hmem

/-- Witness for the amended C5 at the concrete fixture: `B` is re-fetched
with changed fields, and the stored record for `B` is unchanged. -/
theorem window_refetch_not_persisted_witness :
    c5p.window_transactions = Except.ok [newB] ∧
    "B" ∈ c5db.get_transaction_ids 0 10
      (window_account_ids
        ((PlaidSynchronizer.init "a" "t").add_transactions [newB]).transactions) ∧
    assocLookup (PlaidSynchronizer.sync_window c5p 0 10 false
        (PlaidSynchronizer.init "a" "t") c5db).2.transactions "B"
      = assocLookup c5db.transactions "B" :=
  ⟨rfl, by decide,
    window_refetch_not_persisted c5p 0 10 false "a" "t" c5db [newB] "B" rfl
      (by decide)⟩

/-- Invariant proof for the window page loop against a correct provider:
starting anywhere strictly inside the listing with the accumulator holding
exactly the items before the offset, the loop returns the rest of the
listing and issues `1 + (remaining - 1) / P` further page requests. -/
lemma getLoop_spec (all : List Transaction) (P : Nat) (hP : 0 < P) :
    ∀ (fuel offset : Nat) (ret : List Transaction) (reqs : Nat),
      offset < all.length → all.length - offset ≤ fuel →
      ret.length = offset →
      getTransactionsLoop (pagesOf all P) P fuel offset ret reqs =
        some (ret ++ all.drop offset,
          reqs + 1 + (all.length - offset - 1) / P) := by
  intro fuel
  induction fuel with
  | zero =>
    intro offset ret reqs h1 h2 _
    omega
  | succ fuel ih =>
    intro offset ret reqs h1 h2 h3
    rw [getTransactionsLoop]
    dsimp only [pagesOf]
    have hbatchlen : ((all.drop offset).take P).length
        = min P (all.length - offset) := by
      rw [List.length_take, List.length_drop]
    by_cases hcase : all.length - offset ≤ P
    · have hcond : ((all.drop offset).take P).length < P ∨
          all.length ≤ (ret ++ (all.drop offset).take P).length := by
        rcases Nat.lt_or_ge (all.length - offset) P with hlt | hge
        · left; omega
        · right; rw [List.length_append, h3, hbatchlen]; omega
      rw [if_pos hcond]
      have hbatch : (all.drop offset).take P = all.drop offset :=
        List.take_of_length_le (by rw [List.length_drop]; omega)
      have hdiv : (all.length - offset - 1) / P = 0 :=
        Nat.div_eq_of_lt (by omega)
      rw [hbatch, hdiv]
    · have hcond : ¬(((all.drop offset).take P).length < P ∨
          all.length ≤ (ret ++ (all.drop offset).take P).length) := by
        rw [List.length_append, h3, hbatchlen]
        push_neg
        omega
      rw [if_neg hcond]
      rw [ih (offset + P) (ret ++ (all.drop offset).take P) (reqs + 1)
        (by omega) (by omega)
        (by rw [List.length_append, h3, hbatchlen]; omega)]
      have hlist : ret ++ (all.drop offset).take P ++ all.drop (offset + P)
          = ret ++ all.drop offset := by
        rw [List.append_assoc]
        have hdd : all.drop (offset + P) = (all.drop offset).drop P :=
          (List.drop_drop P offset all).symm
        rw [hdd, List.take_append_drop]
      have hreq : reqs + 1 + 1 + (all.length - (offset + P) - 1) / P
          = reqs + 1 + (all.length - offset - 1) / P := by
        have harg : all.length - (offset + P) - 1
            = all.length - offset - 1 - P := by omega
        have h' : (all.length - offset - 1) / P
            = (all.length - offset - 1 - P) / P + 1 :=
          Nat.div_eq_sub_div hP (by omega)
        rw [harg, h']
        omega
      rw [hlist, hreq]

/-- Counterexample to claim C6 as stated: for `N = 0` (provider with no
transactions) and `P = 500`, the claim demands `ceil(0/500) = 0` page
requests, but the loop body runs before any exit test (`while True` at
src/plaidapi.py line 235), so the collector issues one request. -/
theorem page_collector_zero_total_cex :
    get_transactions (pagesOf ([] : List Transaction) 500) 500 1
      = some ([], 1) ∧
    (0 + 500 - 1) / 500 = 0 ∧ (1 : Nat) ≠ 0 :=
  ⟨rfl, by norm_num, by decide⟩

/-- Claim C6, amended: against a correct provider with `total = N` and page
size `P > 0`, the window page collector returns exactly the `N` items and
issues `ceil(N/P)` page requests when `N ≥ 1`, but one request (not zero)
when `N = 0`, since the loop body always runs at least once; in all cases
it stops at the first page shorter than `P` or once the accumulated count
reaches the reported total. -/
theorem page_collector_request_count (all : List Transaction) (P fuel : Nat)
    (hP : 0 < P) (hfuel : all.length < fuel) :
    get_transactions (pagesOf all P) P fuel =
      some (all, if all.length = 0 then 1 else (all.length + P - 1) / P) := by
  by_cases h0 : all.length = 0
  · have hnil : all = [] := List.length_eq_zero.mp h0
    subst hnil
    cases fuel with
    | zero => omega
    | succ f =>
      rw [get_transactions, getTransactionsLoop]
      dsimp only [pagesOf]
      rw [if_pos (Or.inl (by simpa using hP))]
      simp
  · have h1 : 0 < all.length := Nat.pos_of_ne_zero h0
    rw [get_transactions,
      getLoop_spec all P hP fuel 0 [] 0 h1 (by omega) rfl]
    simp only [List.drop_zero, List.nil_append, if_neg h0]
    have h3 : (all.length + P - 1) / P = (all.length + P - 1 - P) / P + 1 :=
      Nat.div_eq_sub_div hP (by omega)
    have h4 : all.length + P - 1 - P = all.length - 1 := by omega
    rw [h3, h4]
    simp only [Nat.sub_zero, Nat.zero_add]
    rw [Nat.add_comm 1 ((all.length - 1) / P)]

/-- Witness for the amended C6: three items with page size two take two
requests (the second page is short) and return all three items. -/
theorem page_collector_request_count_witness :
    (0 : Nat) < 2 ∧ ([wt1, wt2, wt3] : List Transaction).length < 4 ∧
    get_transactions (pagesOf [wt1, wt2, wt3] 2) 2 4
      = some ([wt1, wt2, wt3],
        if ([wt1, wt2, wt3] : List Transaction).length = 0 then 1
        else (([wt1, wt2, wt3] : List Transaction).length + 2 - 1) / 2) :=
  ⟨by decide, by decide,
    page_collector_request_count [wt1, wt2, wt3] 2 4 (by decide) (by decide)⟩

/-- Case classification of a cursor-mode run: it either records an error
with the store untouched, blocks on an exhausted page arrangement, or
reaches the persistence step `cursorFinish` with the drained result. -/
lemma sync_with_cursor_spec (p : Provider) (fb : Bool)
    (s : PlaidSynchronizer) (db : TransactionsDB) :
    (∃ e, PlaidSynchronizer.sync_with_cursor p fb s db
        = some ({ s with plaid_error := some e }, db)) ∨
    (∃ info e, PlaidSynchronizer.sync_with_cursor p fb s db
        = some ({ s with item_info := some info, plaid_error := some e }, db)) ∨
    PlaidSynchronizer.sync_with_cursor p fb s db = none ∨
    (∃ info balances result, p.item_info = Except.ok info ∧
      sync_transactions (db.get_last_sync_cursor info.item_id) p.sync_pages
        = some (Except.ok result) ∧
      PlaidSynchronizer.sync_with_cursor p fb s db
        = some (cursorFinish { s with item_info := some info } db info
            balances result)) := by
  cases hinfo : p.item_info with
  | error e =>
    exact Or.inl ⟨e, by
      unfold PlaidSynchronizer.sync_with_cursor
      simp only [hinfo]⟩
  | ok info =>
    cases hb : (if fb then Except.map some p.balances else Except.ok none) with
    | error e =>
      exact Or.inr (Or.inl ⟨info, e, by
        unfold PlaidSynchronizer.sync_with_cursor
        simp only [hinfo, hb]⟩)
    | ok balances =>
      cases hloop : sync_transactions (db.get_last_sync_cursor info.item_id)
          p.sync_pages with
      | none =>
        refine Or.inr (Or.inr (Or.inl ?_))
        unfold PlaidSynchronizer.sync_with_cursor
        simp only [hinfo, hb, hloop]
      | some r =>
        cases r with
        | error e =>
          exact Or.inr (Or.inl ⟨info, e, by
            unfold PlaidSynchronizer.sync_with_cursor
            simp only [hinfo, hb, hloop]⟩)
        | ok result =>
          exact Or.inr (Or.inr (Or.inr ⟨info, balances, result, rfl, hloop,
            by
              unfold PlaidSynchronizer.sync_with_cursor
              simp only [hinfo, hb, hloop]⟩))

/-- Case classification of a window-mode run: it either records an error
with the store untouched or reaches the persistence step `windowFinish`. -/
lemma sync_window_spec (p : Provider) (sd ed : Nat) (fb : Bool)
    (s : PlaidSynchronizer) (db : TransactionsDB) :
    (∃ e, PlaidSynchronizer.sync_window p sd ed fb s db
        = ({ s with plaid_error := some e }, db)) ∨
    (∃ info e, PlaidSynchronizer.sync_window p sd ed fb s db
        = ({ s with item_info := some info, plaid_error := some e }, db)) ∨
    (∃ info balances ts, PlaidSynchronizer.sync_window p sd ed fb s db
        = windowFinish { s with item_info := some info } db info balances ts
            sd ed) := by
  cases hinfo : p.item_info with
  | error e =>
    exact Or.inl ⟨e, by
      unfold PlaidSynchronizer.sync_window
      simp only [hinfo]⟩
  | ok info =>
    cases hb : (if fb then Except.map some p.balances else Except.ok none) with
    | error e =>
      exact Or.inr (Or.inl ⟨info, e, by
        unfold PlaidSynchronizer.sync_window
        simp only [hinfo, hb]⟩)
    | ok balances =>
      cases hts : p.window_transactions with
      | error e =>
        exact Or.inr (Or.inl ⟨info, e, by
          unfold PlaidSynchronizer.sync_window
          simp only [hinfo, hb, hts]⟩)
      | ok ts =>
        exact Or.inr (Or.inr ⟨info, balances, ts, by
          unfold PlaidSynchronizer.sync_window
          simp only [hinfo, hb, hts]⟩)

/-- The counts record built by the cursor persistence step, by
computation. -/
lemma cursorFinish_counts (s0 : PlaidSynchronizer) (db : TransactionsDB)
    (info : AccountInfo) (balances : Option (List AccountBalance))
    (result : SyncResult) :
    (cursorFinish s0 db info balances result).1.counts =
      { new := result.added.length,
        new_pending := ((s0.add_transactions result.added).add_transactions
          result.modified).count_pending
          (result.added.map (fun t => t.transaction_id)),
        archived := result.removed.length,
        archived_pending := 0,
        total_fetched := result.added.length + result.modified.length,
        accounts := ((result.added ++ result.modified).map
          (fun t => t.account_id)).dedup.length } := rfl

/-- The working map held by the synchronizer after the cursor persistence
step is the added-then-modified merge. -/
lemma cursorFinish_transactions (s0 : PlaidSynchronizer)
    (db : TransactionsDB) (info : AccountInfo)
    (balances : Option (List AccountBalance)) (result : SyncResult) :
    (cursorFinish s0 db info balances result).1.transactions =
      ((s0.add_transactions result.added).add_transactions
        result.modified).transactions := rfl

/-- `count_pending` reads only the working map. -/
lemma count_pending_congr (s1 s2 : PlaidSynchronizer)
    (h : s1.transactions = s2.transactions) (tids : List String) :
    s1.count_pending tids = s2.count_pending tids := by
  unfold PlaidSynchronizer.count_pending
  rw [h]

/-- Claim C7: every cursor-mode run that completes without error emits
SyncCounts with `new = |added|`, `archived = |removed|`,
`total_fetched = |added| + |modified|`, `accounts` the number of distinct
account ids across added and modified, `archived_pending = 0`, and
`new_pending` counting the added ids whose entry in the merged working map
is pending. -/
theorem cursor_counts_formula (p : Provider) (fb : Bool) (n a : String)
    (db : TransactionsDB) (s' : PlaidSynchronizer) (db' : TransactionsDB)
    (hrun : PlaidSynchronizer.sync_with_cursor p fb
      (PlaidSynchronizer.init n a) db = some (s', db'))
    (hok : s'.plaid_error = none) :
    ∃ info result, p.item_info = Except.ok info ∧
      sync_transactions (db.get_last_sync_cursor info.item_id) p.sync_pages
        = some (Except.ok result) ∧
      s'.counts =
        { new := result.added.length,
          new_pending := s'.count_pending
            (result.added.map (fun t => t.transaction_id)),
          archived := result.removed.length,
          archived_pending := 0,
          total_fetched := result.added.length + result.modified.length,
          accounts := ((result.added ++ result.modified).map
            (fun t => t.account_id)).dedup.length } := by
  rcases sync_with_cursor_spec p fb (PlaidSynchronizer.init n a) db with
    ⟨e, h⟩ | ⟨info, e, h⟩ | h | ⟨info, balances, result, hinfo, hloop, h⟩
  · rw [h] at hrun
    simp only [Option.some.injEq, Prod.mk.injEq] at hrun
    rw [← hrun.1] at hok
    simp [PlaidSynchronizer.init] at hok
  · rw [h] at hrun
    simp only [Option.some.injEq, Prod.mk.injEq] at hrun
    rw [← hrun.1] at hok
    simp [PlaidSynchronizer.init] at hok
  · rw [h] at hrun
    exact absurd hrun (by simp)
  · rw [h] at hrun
    simp only [Option.some.injEq] at hrun
    have hs : (cursorFinish { PlaidSynchronizer.init n a with
        item_info := some info } db info balances result).1 = s' :=
      congrArg Prod.fst hrun
    refine ⟨info, result, hinfo, hloop, ?_⟩
    rw [← hs, cursorFinish_counts]
    congr 1

/-- Witness for C7: the clean two-page drain of `c7p` (one added pending
transaction, one removed id) yields counts (1, 1, 1, 0, 1, 1). -/
theorem cursor_counts_formula_witness :
    PlaidSynchronizer.sync_with_cursor c7p false
        (PlaidSynchronizer.init "a" "t") dbEmpty = some (c7s, c7db2) ∧
    c7s.plaid_error = none ∧
    (∃ info result, c7p.item_info = Except.ok info ∧
      sync_transactions (dbEmpty.get_last_sync_cursor info.item_id)
          c7p.sync_pages = some (Except.ok result) ∧
      c7s.counts =
        { new := result.added.length,
          new_pending := c7s.count_pending
            (result.added.map (fun t => t.transaction_id)),
          archived := result.removed.length,
          archived_pending := 0,
          total_fetched := result.added.length + result.modified.length,
          accounts := ((result.added ++ result.modified).map
            (fun t => t.account_id)).dedup.length }) :=
  ⟨rfl, rfl,
    cursor_counts_formula c7p false "a" "t" dbEmpty c7s c7db2 rfl rfl⟩

/-- Pending counts are bounded in the window persistence step: both pending
counts are lengths of filtered sublists of the corresponding id sets. -/
lemma windowFinish_counts_bound (s0 : PlaidSynchronizer) (db : TransactionsDB)
    (info : AccountInfo) (balances : Option (List AccountBalance))
    (ts : List Transaction) (sd ed : Nat) :
    (windowFinish s0 db info balances ts sd ed).1.counts.new_pending
        ≤ (windowFinish s0 db info balances ts sd ed).1.counts.new ∧
      (windowFinish s0 db info balances ts sd ed).1.counts.archived_pending
        ≤ (windowFinish s0 db info balances ts sd ed).1.counts.archived := by
  unfold windowFinish PlaidSynchronizer.count_pending
  dsimp only
  exact ⟨List.length_filter_le _ _, List.length_filter_le _ _⟩

/-- Pending counts are bounded in the cursor persistence step: the new
pending count filters the added id list, and the archived pending count is
literally zero. -/
lemma cursorFinish_counts_bound (s0 : PlaidSynchronizer) (db : TransactionsDB)
    (info : AccountInfo) (balances : Option (List AccountBalance))
    (result : SyncResult) :
    (cursorFinish s0 db info balances result).1.counts.new_pending
        ≤ (cursorFinish s0 db info balances result).1.counts.new ∧
      (cursorFinish s0 db info balances result).1.counts.archived_pending
        ≤ (cursorFinish s0 db info balances result).1.counts.archived := by
  unfold cursorFinish PlaidSynchronizer.count_pending
  dsimp only
  constructor
  · calc ((result.added.map (fun t => t.transaction_id)).filter _).length
        ≤ (result.added.map (fun t => t.transaction_id)).length :=
          List.length_filter_le _ _
      _ = result.added.length := List.length_map _ _
  · exact Nat.zero_le _

/-- Claim C8: for every reconciliation result in either mode, the emitted
SyncCounts satisfies `new_pending ≤ new` and
`archived_pending ≤ archived`. -/
theorem counts_pending_bounds (p : Provider) (sd ed : Nat)
    (fb uc : Bool) (n a : String) (db : TransactionsDB)
    (s' : PlaidSynchronizer) (db' : TransactionsDB)
    (hrun : PlaidSynchronizer.sync p sd ed fb uc
      (PlaidSynchronizer.init n a) db = some (s', db')) :
    s'.counts.new_pending ≤ s'.counts.new ∧
      s'.counts.archived_pending ≤ s'.counts.archived := by
  by_cases hm : uc
  · rw [PlaidSynchronizer.sync, if_pos hm] at hrun
    rcases sync_with_cursor_spec p fb (PlaidSynchronizer.init n a) db with
      ⟨e, h⟩ | ⟨info, e, h⟩ | h | ⟨info, balances, result, hinfo, hloop, h⟩
    · rw [h] at hrun
      simp only [Option.some.injEq] at hrun
      have hs : _ = s' := congrArg Prod.fst hrun
      rw [← hs]
      exact ⟨Nat.le.refl, Nat.le.refl⟩
    · rw [h] at hrun
      simp only [Option.some.injEq] at hrun
      have hs : _ = s' := congrArg Prod.fst hrun
      rw [← hs]
      exact ⟨Nat.le.refl, Nat.le.refl⟩
    · rw [h] at hrun
      exact absurd hrun (by simp)
    · rw [h] at hrun
      simp only [Option.some.injEq] at hrun
      have hs : _ = s' := congrArg Prod.fst hrun
      rw [← hs]
      exact cursorFinish_counts_bound _ db info balances result
  · rw [PlaidSynchronizer.sync, if_neg hm] at hrun
    simp only [Option.some.injEq] at hrun
    rcases sync_window_spec p sd ed fb (PlaidSynchronizer.init n a) db with
      ⟨e, h⟩ | ⟨info, e, h⟩ | ⟨info, balances, ts, h⟩
    · have hs : _ = s' := congrArg Prod.fst (h.symm.trans hrun)
      rw [← hs]
      exact ⟨Nat.le.refl, Nat.le.refl⟩
    · have hs : _ = s' := congrArg Prod.fst (h.symm.trans hrun)
      rw [← hs]
      exact ⟨Nat.le.refl, Nat.le.refl⟩
    · have hs : _ = s' := congrArg Prod.fst (h.symm.trans hrun)
      rw [← hs]
      exact windowFinish_counts_bound _ db info balances ts sd ed

/-- Witness for C8 at the window fixture: the run on `c5p` yields counts
(0, 0, 0, 0, 1, 1), satisfying both bounds. -/
theorem counts_pending_bounds_witness :
    PlaidSynchronizer.sync c5p 0 10 false false
        (PlaidSynchronizer.init "a" "t") c5db = some (c5s, c5db2) ∧
      (c5s.counts.new_pending ≤ c5s.counts.new ∧
        c5s.counts.archived_pending ≤ c5s.counts.archived) :=
  ⟨rfl, counts_pending_bounds c5p 0 10 false false "a" "t" c5db c5s c5db2 rfl⟩

/-- The window persistence step never touches the archived-id log. -/
lemma windowFinish_archived (s0 : PlaidSynchronizer) (db : TransactionsDB)
    (info : AccountInfo) (balances : Option (List AccountBalance))
    (ts : List Transaction) (sd ed : Nat) :
    (windowFinish s0 db info balances ts sd ed).2.archived = db.archived := by
  unfold windowFinish
  dsimp only
  rw [foldl_window_save_archived]
  cases balances with
  | none => rfl
  | some bs => rw [foldl_save_balance_archived]; rfl

/-- The cursor persistence step never touches the archived-id log. -/
lemma cursorFinish_archived (s0 : PlaidSynchronizer) (db : TransactionsDB)
    (info : AccountInfo) (balances : Option (List AccountBalance))
    (result : SyncResult) :
    (cursorFinish s0 db info balances result).2.archived = db.archived := by
  unfold cursorFinish
  dsimp only
  have h1 : ∀ (x : TransactionsDB) (i c : String),
      (x.save_sync_cursor i c).archived = x.archived := fun _ _ _ => rfl
  rw [h1, foldl_save_transaction_archived, foldl_save_transaction_archived]
  cases balances with
  | none => rfl
  | some bs => rw [foldl_save_balance_archived]; rfl

/-- Claim C9: neither reconciliation path ever invokes the store's
`TransactionsDB.archive_transactions` capability — which is the only
operation that grows the store's `archived` log — so after any run in
either mode (including runs whose drain reported removed ids) the archived
log is exactly what it was before. -/
theorem archive_never_invoked (p : Provider) (sd ed : Nat) (fb uc : Bool)
    (s : PlaidSynchronizer) (db : TransactionsDB) (s' : PlaidSynchronizer)
    (db' : TransactionsDB)
    (hrun : PlaidSynchronizer.sync p sd ed fb uc s db = some (s', db')) :
    db'.archived = db.archived := by
  by_cases hm : uc
  · rw [PlaidSynchronizer.sync, if_pos hm] at hrun
    rcases sync_with_cursor_spec p fb s db with
      ⟨e, h⟩ | ⟨info, e, h⟩ | h | ⟨info, balances, result, hinfo, hloop, h⟩
    · rw [h] at hrun
      simp only [Option.some.injEq] at hrun
      have hd : _ = db' := congrArg Prod.snd hrun
      rw [← hd]
    · rw [h] at hrun
      simp only [Option.some.injEq] at hrun
      have hd : _ = db' := congrArg Prod.snd hrun
      rw [← hd]
    · rw [h] at hrun
      exact absurd hrun (by simp)
    · rw [h] at hrun
      simp only [Option.some.injEq] at hrun
      have hd : _ = db' := congrArg Prod.snd hrun
      rw [← hd]
      exact cursorFinish_archived _ db info balances result
  · rw [PlaidSynchronizer.sync, if_neg hm] at hrun
    simp only [Option.some.injEq] at hrun
    rcases sync_window_spec p sd ed fb s db with
      ⟨e, h⟩ | ⟨info, e, h⟩ | ⟨info, balances, ts, h⟩
    · have hd : _ = db' := congrArg Prod.snd (h.symm.trans hrun)
      rw [← hd]
    · have hd : _ = db' := congrArg Prod.snd (h.symm.trans hrun)
      rw [← hd]
    · have hd : _ = db' := congrArg Prod.snd (h.symm.trans hrun)
      rw [← hd]
      exact windowFinish_archived _ db info balances ts sd ed

/-- Witness for C9 at the cursor fixture: the drain of `c7p` reports a
removed id, counts it (archived = 1), and still leaves the archived log
empty. -/
theorem archive_never_invoked_witness :
    PlaidSynchronizer.sync c7p 0 0 false true
        (PlaidSynchronizer.init "a" "t") dbEmpty = some (c7s, c7db2) ∧
      c7db2.archived = dbEmpty.archived :=
  ⟨rfl, archive_never_invoked c7p 0 0 false true
    (PlaidSynchronizer.init "a" "t") dbEmpty c7s c7db2 rfl⟩

/-- Claim C10: for every account sync in either mode, started from the
freshly constructed synchronizer, a run that ends with a recorded provider
error leaves the counts at their initial value `SyncCounts(0,0,0,0,0,0)`:
the counts are assigned only after every provider call has succeeded, so a
failed account never reports a partially computed tuple. -/
theorem failed_run_counts_zero (p : Provider) (sd ed : Nat) (fb uc : Bool)
    (n a : String) (db : TransactionsDB) (s' : PlaidSynchronizer)
    (db' : TransactionsDB) (e : PlaidError)
    (hrun : PlaidSynchronizer.sync p sd ed fb uc
      (PlaidSynchronizer.init n a) db = some (s', db'))
    (herr : s'.plaid_error = some e) :
    s'.counts = ⟨0, 0, 0, 0, 0, 0⟩ := by
  by_cases hm : uc
  · rw [PlaidSynchronizer.sync, if_pos hm] at hrun
    rcases sync_with_cursor_spec p fb (PlaidSynchronizer.init n a) db with
      ⟨e0, h⟩ | ⟨info, e0, h⟩ | h | ⟨info, balances, result, hinfo, hloop, h⟩
    · rw [h] at hrun
      simp only [Option.some.injEq] at hrun
      have hs : _ = s' := congrArg Prod.fst hrun
      rw [← hs]
      rfl
    · rw [h] at hrun
      simp only [Option.some.injEq] at hrun
      have hs : _ = s' := congrArg Prod.fst hrun
      rw [← hs]
      rfl
    · rw [h] at hrun
      exact absurd hrun (by simp)
    · rw [h] at hrun
      simp only [Option.some.injEq] at hrun
      have hs : _ = s' := congrArg Prod.fst hrun
      rw [← hs] at herr
      simp [cursorFinish, PlaidSynchronizer.add_transactions,
        PlaidSynchronizer.init] at herr
  · rw [PlaidSynchronizer.sync, if_neg hm] at hrun
    simp only [Option.some.injEq] at hrun
    rcases sync_window_spec p sd ed fb (PlaidSynchronizer.init n a) db with
      ⟨e0, h⟩ | ⟨info, e0, h⟩ | ⟨info, balances, ts, h⟩
    · have hs : _ = s' := congrArg Prod.fst (h.symm.trans hrun)
      rw [← hs]
      rfl
    · have hs : _ = s' := congrArg Prod.fst (h.symm.trans hrun)
      rw [← hs]
      rfl
    · have hs : _ = s' := congrArg Prod.fst (h.symm.trans hrun)
      rw [← hs] at herr
      simp [windowFinish, PlaidSynchronizer.add_transactions,
        PlaidSynchronizer.init] at herr

/-- Witness for C10: the failing cursor run on `c1p` records the error and
reports the all-zero counts tuple. -/
theorem failed_run_counts_zero_witness :
    PlaidSynchronizer.sync c1p 0 0 false true
        (PlaidSynchronizer.init "acct" "tok") c1db = some (c1s, c1db) ∧
      c1s.plaid_error = some wErr ∧ c1s.counts = ⟨0, 0, 0, 0, 0, 0⟩ :=
  ⟨rfl, rfl, failed_run_counts_zero c1p 0 0 false true "acct" "tok" c1db c1s
    c1db wErr rfl rfl⟩
